import Mathlib

/-!
# Verification of the pyMix Gaussian-mixture model family

A shallow embedding of `models/pyMix.py`: the EM control loop of `GMM.fit`,
the not-fitted guards of `sample` / `score_samples` / `score`, the
constructors of `MPPCA` and `MFA`, and the M-step update formulas of the
Full-covariance, MPPCA and MFA variants.

Conventions of the embedding:
* Python floats are idealised as rationals (`ℚ`); `1e-3` is `1/1000`.
* The value `-np.inf` used to seed `oldL` is modelled by `Option ℚ` with
  `none` standing for minus infinity: `np.abs(ll - (-inf)) = inf` is never
  `< tol` for a (finite) tolerance, so the convergence test on `none` is
  `false`.
* A Python run-time exception is an `Except.error` carrying a `PyErr`;
  a normal return of the value `None` is `Except.ok none`.
* The per-component Gaussian density values (delegated by the source to
  `scipy.stats.multivariate_normal.pdf` / `util._mv_gaussian_pdf`, which the
  spec lists as external collaborators) enter the E-step embedding as an
  explicit argument `pdf : Fin n → Fin K → ℚ`.
* The variant-specific `_e_step` / `_m_step` methods reached by dynamic
  dispatch inside `GMM.fit` appear as explicit function arguments
  `e : P → ℚ` (total log-likelihood of one E-step) and `m : P → P`
  (one M-step) over an abstract parameter type `P`.
-/

namespace PyMix

/-- Run-time exceptions the embedded code can raise. -/
inductive PyErr where
  /-- Reading the local variable `ll` at `self.trainNll = ll` when no loop
  iteration ever assigned it. -/
  | unboundLocalError
  /-- Subscripting `params['mu_list']` when `params` is `None`. -/
  | typeErrorNoneSubscript
  /-- Calling a method such as `.mean()` on `None`. -/
  | attributeErrorNone
deriving DecidableEq, Repr

/-- The convergence test `np.abs(ll - oldL) < self.tol` of `GMM.fit`
(line 242).  `oldL = none` models the initial `oldL = -np.inf`, for which
the absolute difference is `+inf` and the test is false. -/
def cvg (oldL : Option ℚ) (ll tol : ℚ) : Bool :=
  match oldL with
  | none => false
  | some o => |ll - o| < tol

/-- The `for i in range(max_iter)` loop of `GMM.fit` (lines 229-247).
State threaded through: remaining iterations, current `params`, `oldL`
(`none` = `-inf`), and the last value assigned to the local `ll`
(`none` = not yet assigned).  Returns the final `params`, the final
binding of `ll`, and whether the loop exited via `break` (so that the
`for`-`else` clause is skipped).  The E-step may raise, in which case the
whole `fit` call aborts. -/
def emLoop {P : Type} (e : P → Except PyErr ℚ) (m : P → P) (tol : ℚ) :
    Nat → P → Option ℚ → Option ℚ → Except PyErr (P × Option ℚ × Bool)
  | 0, p, _, lastLL => Except.ok (p, lastLL, false)
  | Nat.succ fuel, p, oldL, _ =>
    match e p with
    | Except.error err => Except.error err
    | Except.ok ll =>
      if cvg oldL ll tol then Except.ok (p, some ll, true)
      else emLoop e m tol fuel (m p) (some ll) (some ll)

/-- `GMM._init_params` (lines 196-210): seeds the parameters from a k-means
clustering when `init_method == 'kmeans'`; any other method falls off the
end of the function and returns `None`.  The k-means-derived parameter set
(built from the external `sklearn.cluster.KMeans` collaborator) is passed
in as `kmeansParams`. -/
def GMM.initParams {P : Type} (init_method : String) (kmeansParams : P) : Option P :=
  if init_method = "kmeans" then some kmeansParams else none

/-- Lines 224-227 of `GMM.fit`: use `params_init` when supplied, otherwise
call `_init_params`. -/
def GMM.chooseParams {P : Type} (params_init : Option P) (init_method : String)
    (kmeansParams : P) : Option P :=
  match params_init with
  | some p => some p
  | none => GMM.initParams init_method kmeansParams

/-- Lifting of a variant's E-step to the `Option P` carried by `fit`:
when `params` is `None`, `_e_step` raises a `TypeError` at
`params['mu_list']` (line 126). -/
def estepOrRaise {P : Type} (e : P → ℚ) : Option P → Except PyErr ℚ
  | none => Except.error PyErr.typeErrorNoneSubscript
  | some p => Except.ok (e p)

/-- The observable outcome of a `fit` call. -/
structure FitOutcome (P : Type) where
  /-- `self.params` after the call; outer `none` when line 255 was never
  reached. -/
  paramsAttr : Option P
  /-- `self.trainNll` after the call; `none` when line 256 was never
  completed. -/
  trainNll : Option ℚ
  /-- `self.isFitted` after the call (`False` from the constructor unless
  line 257 ran). -/
  isFitted : Bool
  /-- Whether the "did not converge" message of the `for`-`else` clause
  (lines 249-252) was printed. -/
  warned : Bool
  /-- Whether the loop exited through the `break` at line 243. -/
  converged : Bool
  /-- The exception propagated out of `fit`, if any. -/
  error : Option PyErr
deriving DecidableEq, Repr

/-- `GMM.fit` (lines 212-257): choose the starting parameters, run the EM
loop, print the non-convergence warning when the loop exhausts `max_iter`
with `verbose` set, then assign `self.params`, `self.trainNll` and
`self.isFitted`.  The assignment `self.trainNll = ll` raises
`UnboundLocalError` when no iteration ever bound `ll`; `self.params` has
already been assigned at that point and `self.isFitted` is never set. -/
def GMM.fit {P : Type} (e : P → ℚ) (m : P → P) (tol : ℚ) (max_iter : Nat)
    (verbose : Bool) (kmeansParams : P) (params_init : Option P)
    (init_method : String) : FitOutcome (Option P) :=
  let params0 : Option P := GMM.chooseParams params_init init_method kmeansParams
  match emLoop (estepOrRaise e) (Option.map m) tol max_iter params0 none none with
  | Except.error err =>
    { paramsAttr := none, trainNll := none, isFitted := false,
      warned := false, converged := false, error := some err }
  | Except.ok (pFinal, llFinal, broke) =>
    let warned := !broke && verbose
    match llFinal with
    | none =>
      { paramsAttr := some pFinal, trainNll := none, isFitted := false,
        warned := warned, converged := broke, error := some PyErr.unboundLocalError }
    | some ll =>
      { paramsAttr := some pFinal, trainNll := some ll, isFitted := true,
        warned := warned, converged := broke, error := none }

/-! ## Fitted-model operations: `sample`, `score_samples`, `score` -/

/-- The attributes of a model object that `sample` / `score_samples` /
`score` read: the `isFitted` flag set by the constructor (`False`) or by a
completed `fit` (`True`), and the stored `self.params`. -/
structure ModelState (P : Type) where
  isFitted : Bool
  params : P
deriving DecidableEq, Repr

/-- Mean of a list of rationals, as `np.ndarray.mean`: sum divided by
length. -/
def listMean (l : List ℚ) : ℚ := l.sum / l.length

/-- `GMM.score_samples` (lines 293-299): when the model is not fitted,
print a message and fall off the end of the function, returning `None`
(`Except.ok none`); otherwise return the per-example log-likelihood vector
produced by one E-step on the stored parameters (`ellOf`, the
`self._e_step(X, self.params)[1]` of the dispatched variant). -/
def GMM.scoreSamples {P X : Type} (mdl : ModelState P)
    (ellOf : P → X → List ℚ) (x : X) : Except PyErr (Option (List ℚ)) :=
  if !mdl.isFitted then Except.ok none
  else Except.ok (some (ellOf mdl.params x))

/-- `GMM.score` (lines 301-322): when the model is not fitted, print a
message and return `None`; otherwise call `self.score_samples(X)` and
return its `.mean()`.  (Calling `.mean()` on a `None` result would raise
an `AttributeError`; the guard makes that branch unreachable.) -/
def GMM.score {P X : Type} (mdl : ModelState P)
    (ellOf : P → X → List ℚ) (x : X) : Except PyErr (Option ℚ) :=
  if !mdl.isFitted then Except.ok none
  else
    match GMM.scoreSamples mdl ellOf x with
    | Except.ok (some sample_ll) => Except.ok (some (listMean sample_ll))
    | Except.ok none => Except.error PyErr.attributeErrorNone
    | Except.error err => Except.error err

/-- `GMM.sample` (lines 259-291): when the model is not fitted, print a
message and return `None`; otherwise draw `n_samples` points by picking a
component from the cumulative weights and drawing from the external
`numpy.random.multivariate_normal` primitive — composed here into the
argument `draw` acting on the stored parameters, since the randomness
source is an external collaborator. -/
def GMM.sample {P S : Type} (mdl : ModelState P) (draw : P → Nat → S)
    (n_samples : Nat) : Except PyErr (Option S) :=
  if !mdl.isFitted then Except.ok none
  else Except.ok (some (draw mdl.params n_samples))

/-! ## Constructors -/

/-- The configuration attributes set by `GMM.__init__` (lines 87-94). -/
structure GMMConfig where
  tol : ℚ
  max_iter : Nat
  random_state : Int
  isFitted : Bool
  verbose : Bool
  n_components : Nat
deriving DecidableEq, Repr

/-- `GMM.__init__` (lines 87-94), with the Python defaults
`tol=1e-3, max_iter=1000, random_state=0, verbose=True` supplied
explicitly by each caller. -/
def GMM.init (n_components : Nat) (tol : ℚ) (max_iter : Nat)
    (random_state : Int) (verbose : Bool) : GMMConfig :=
  { tol := tol, max_iter := max_iter, random_state := random_state,
    isFitted := false, verbose := verbose, n_components := n_components }

/-- The configuration of an `MPPCA` model: the inherited `GMM` attributes
plus `latent_dim`. -/
structure MPPCAConfig where
  base : GMMConfig
  latent_dim : Nat
deriving DecidableEq, Repr

/-- `MPPCA.__init__` (lines 451-456).  The source forwards literal values
`tol=1e-3, max_iter=1000, random_state=0, verbose=True` to
`super().__init__` instead of the `tol`, `max_iter`, `random_state`,
`verbose` arguments it received; the received values are discarded. -/
def MPPCA.init (n_components latent_dim : Nat) (tol : ℚ) (max_iter : Nat)
    (random_state : Int) (verbose : Bool) : MPPCAConfig :=
  { base := GMM.init n_components (1/1000) 1000 0 true,
    latent_dim := latent_dim }

/-- The configuration of an `MFA` model: the inherited `GMM` attributes
plus `latent_dim`. -/
structure MFAConfig where
  base : GMMConfig
  latent_dim : Nat
deriving DecidableEq, Repr

/-- `MFA.__init__` (lines 615-620).  As in `MPPCA.__init__`, the literal
values `tol=1e-3, max_iter=1000, random_state=0, verbose=True` are passed
to `super().__init__` and the received arguments are discarded. -/
def MFA.init (n_components latent_dim : Nat) (tol : ℚ) (max_iter : Nat)
    (random_state : Int) (verbose : Bool) : MFAConfig :=
  { base := GMM.init n_components (1/1000) 1000 0 true,
    latent_dim := latent_dim }

/-! ## E-step responsibilities and M-step update formulas

Data is indexed concretely: `X : Fin n → Fin d → ℚ` is the training
matrix, `pdf i k` the value of the external multivariate-Gaussian density
of component `k` at example `i`, `resp` the responsibility matrix. -/

/-- The responsibility computation shared by every variant's `_e_step`
(lines 136-142): `r[:,k] = pdf_k(X)`, `r = r * components`,
`r_sum = r.sum(axis=1)`, `responsibilities = r / r_sum[:,None]`. -/
def GMM.responsibilities {n K : Nat} (pdf : Fin n → Fin K → ℚ)
    (w : Fin K → ℚ) : Fin n → Fin K → ℚ :=
  fun i k => pdf i k * w k / ∑ j, pdf i j * w j

/-- The parameter dictionary produced by the Full-covariance `GMM._m_step`. -/
structure FullParams (K d : Nat) where
  mu_list : Fin K → Fin d → ℚ
  Sigma_list : Fin K → Fin d → Fin d → ℚ
  components : Fin K → ℚ
deriving DecidableEq

/-- `GMM._m_step` (lines 154-191): `components = np.mean(resp, axis=0)`;
per component `mu = np.sum(X*r[:,None], axis=0) / r.sum()` and
`Sigma = (X*r[:,None]).T.dot(X) / r.sum() - np.outer(mu, mu)`. -/
def GMM.mStep {n d K : Nat} (X : Fin n → Fin d → ℚ)
    (resp : Fin n → Fin K → ℚ) : FullParams K d :=
  let mu : Fin K → Fin d → ℚ :=
    fun k j => (∑ i, X i j * resp i k) / ∑ i, resp i k
  { components := fun k => (∑ i, resp i k) / (n : ℚ),
    mu_list := mu,
    Sigma_list := fun k a b =>
      (∑ i, X i a * resp i k * X i b) / (∑ i, resp i k) - mu k a * mu k b }

/-- `MPPCA._m_step` mean update (lines 581-585):
`resid = X - z.dot(W.T)`, `mu = np.sum(resid*r[:,None], axis=0) / r.sum()`,
where `W` is the component's loading matrix from the previous parameters
and `z` the E-step conditional latent means. -/
def MPPCA.mStepMu {n d L : Nat} (X : Fin n → Fin d → ℚ) (r : Fin n → ℚ)
    (W : Fin d → Fin L → ℚ) (z : Fin n → Fin L → ℚ) : Fin d → ℚ :=
  fun j => (∑ i, (X i j - ∑ l, z i l * W j l) * r i) / ∑ i, r i

/-- `MFA._m_step` mean update (lines 746-750): textually the same
computation as `MPPCA._m_step`'s, `resid = X - z.dot(W.T)` then
`mu = np.sum(resid*r[:,None], axis=0) / r.sum()`. -/
def MFA.mStepMu {n d L : Nat} (X : Fin n → Fin d → ℚ) (r : Fin n → ℚ)
    (W : Fin d → Fin L → ℚ) (z : Fin n → Fin L → ℚ) : Fin d → ℚ :=
  fun j => (∑ i, (X i j - ∑ l, z i l * W j l) * r i) / ∑ i, r i

/-! ## Formulas as the specification writes them (for refinement claims) -/

/-- Spec formula `mean_k = (Σ_n r_k[n]·x_n) / R_k`. -/
def specPlainMean {n d : Nat} (X : Fin n → Fin d → ℚ) (r : Fin n → ℚ) :
    Fin d → ℚ :=
  fun j => (∑ i, r i * X i j) / ∑ i, r i

/-- Spec formula `Σ_k = (Σ_n r_k[n]·x_n·x_nᵗ)/R_k − mean_k·mean_kᵗ` with
`mean_k` the spec's plain weighted mean. -/
def specFullCov {n d : Nat} (X : Fin n → Fin d → ℚ) (r : Fin n → ℚ) :
    Fin d → Fin d → ℚ :=
  fun a b => (∑ i, r i * (X i a * X i b)) / (∑ i, r i)
    - specPlainMean X r a * specPlainMean X r b

/-- Spec formula for the MPPCA/MFA mean: the responsibility-weighted
average of the residual `x_n − W·z_n`,
`mean_k = (Σ_n r_k[n]·(x_n − W·z_n)) / R_k`. -/
def specResidualMean {n d L : Nat} (X : Fin n → Fin d → ℚ) (r : Fin n → ℚ)
    (W : Fin d → Fin L → ℚ) (z : Fin n → Fin L → ℚ) : Fin d → ℚ :=
  fun j => (∑ i, r i * (X i j - ∑ l, W j l * z i l)) / ∑ i, r i

/-! ## Control-flow lemmas for the EM loop -/

/-- The value held by `oldL` at the start of iteration `j` of a loop run
from parameters `p` and initial old-likelihood `oldL`, given that no
earlier iteration broke: iteration `0` sees `oldL`, iteration `j+1` sees
the log-likelihood computed at iteration `j`, namely `e (m^[j] p)`. -/
def prevLL {P : Type} (e : P → ℚ) (m : P → P) (p : P) (oldL : Option ℚ) :
    Nat → Option ℚ
  | 0 => oldL
  | Nat.succ j => some (e (m^[j] p))

lemma prevLL_shift {P : Type} (e : P → ℚ) (m : P → P) (p : P)
    (oldL : Option ℚ) (j : Nat) :
    prevLL e m (m p) (some (e p)) j = prevLL e m p oldL (j + 1) := by
  cases j with
  | zero => simp [prevLL]
  | succ j => simp [prevLL, Function.iterate_succ_apply]

/-- If the convergence test first succeeds at iteration `k < fuel`, the
loop returns the parameters passed *into* iteration `k` (no M-step applied
there), which are `m^[k] p`, together with that iteration's
log-likelihood, via `break`. -/
lemma emLoop_break_at {P : Type} (e : P → ℚ) (m : P → P) (tol : ℚ)
    (k : Nat) :
    ∀ (fuel : Nat) (p : P) (oldL lastLL : Option ℚ), k < fuel →
    (∀ j, j < k → cvg (prevLL e m p oldL j) (e (m^[j] p)) tol = false) →
    cvg (prevLL e m p oldL k) (e (m^[k] p)) tol = true →
    emLoop (estepOrRaise e) (Option.map m) tol fuel (some p) oldL lastLL
      = Except.ok (some (m^[k] p), some (e (m^[k] p)), true) := by
  induction k with
  | zero =>
    intro fuel p oldL lastLL hk _ hcvg
    match fuel, hk with
    | Nat.succ fuel, _ =>
      simp only [prevLL, Function.iterate_zero_apply] at hcvg
      simp [emLoop, estepOrRaise, hcvg]
  | succ k ih =>
    intro fuel p oldL lastLL hk hprev hcvg
    match fuel, hk with
    | Nat.succ fuel, hk =>
      have h0 : cvg oldL (e p) tol = false := by
        have h := hprev 0 (Nat.succ_pos k)
        simpa [prevLL] using h
      have hrec := ih fuel (m p) (some (e p)) (some (e p))
        (Nat.lt_of_succ_lt_succ hk)
        (fun j hj => by
          rw [prevLL_shift e m p oldL j, ← Function.iterate_succ_apply]
          exact hprev (j + 1) (Nat.succ_lt_succ hj))
        (by
          rw [prevLL_shift e m p oldL k, ← Function.iterate_succ_apply]
          exact hcvg)
      simp only [emLoop, estepOrRaise, h0, if_neg, Bool.false_eq_true,
        if_false, Option.map_some']
      rw [hrec, ← Function.iterate_succ_apply]

/-- If the convergence test fails at every one of the `fuel` iterations,
the loop exhausts its budget: the returned parameters are the result of
the final iteration's M-step, `m^[fuel] p`, the final binding of `ll` is
the last iteration's log-likelihood (or the incoming `lastLL` when
`fuel = 0`), and the `break` flag is off. -/
lemma emLoop_exhausts {P : Type} (e : P → ℚ) (m : P → P) (tol : ℚ) :
    ∀ (fuel : Nat) (p : P) (oldL lastLL : Option ℚ),
    (∀ j, j < fuel → cvg (prevLL e m p oldL j) (e (m^[j] p)) tol = false) →
    emLoop (estepOrRaise e) (Option.map m) tol fuel (some p) oldL lastLL
      = Except.ok (some (m^[fuel] p), prevLL e m p lastLL fuel, false) := by
  intro fuel
  induction fuel with
  | zero =>
    intro p oldL lastLL _
    simp [emLoop, prevLL]
  | succ fuel ih =>
    intro p oldL lastLL hprev
    have h0 : cvg oldL (e p) tol = false := by
      have h := hprev 0 (Nat.succ_pos _)
      simpa [prevLL] using h
    have hrec := ih (m p) (some (e p)) (some (e p))
      (fun j hj => by
        rw [prevLL_shift e m p oldL j, ← Function.iterate_succ_apply]
        exact hprev (j + 1) (Nat.succ_lt_succ hj))
    simp only [emLoop, estepOrRaise, h0, Bool.false_eq_true, if_false,
      Option.map_some']
    rw [hrec, ← Function.iterate_succ_apply,
      prevLL_shift e m p lastLL fuel]

/-! ## Claim theorems -/

/-- C3: when the convergence test `|ll - oldL| < tol` first succeeds at
iteration `k` of a `fit` run, the loop breaks without applying that
iteration's M-step: the stored parameters are `m^[k] p0`, the output of
the previous completed M-step (`p0` itself, the initial parameters, when
`k = 0` — and indeed `oldL` starts at `-∞`, modelled by `prevLL … 0 =
none`, on which the test is `false`), and the stored training
log-likelihood is the converging iteration's. -/
theorem c3_convergence_keeps_previous_mstep_params {P : Type}
    (e : P → ℚ) (m : P → P) (tol : ℚ) (max_iter : Nat) (verbose : Bool)
    (kmeansParams p0 : P) (init_method : String) (k : Nat)
    (hk : k < max_iter)
    (hprev : ∀ j, j < k → cvg (prevLL e m p0 none j) (e (m^[j] p0)) tol = false)
    (hcvg : cvg (prevLL e m p0 none k) (e (m^[k] p0)) tol = true) :
    GMM.fit e m tol max_iter verbose kmeansParams (some p0) init_method
      = { paramsAttr := some (some (m^[k] p0)),
          trainNll := some (e (m^[k] p0)), isFitted := true,
          warned := false, converged := true, error := none } := by
  have hloop := emLoop_break_at e m tol k max_iter p0 none none hk hprev hcvg
  simp only [GMM.fit, GMM.chooseParams, hloop, Bool.not_true, Bool.false_and]

theorem c3_convergence_keeps_previous_mstep_params_witness :
    GMM.fit (fun x : ℚ => x) (fun x => x + 1) 2 3 false 0 (some 0) "kmeans"
      = { paramsAttr := some (some 1), trainNll := some 1, isFitted := true,
          warned := false, converged := true, error := none } := by
  have h := c3_convergence_keeps_previous_mstep_params
    (fun x : ℚ => x) (fun x => x + 1) 2 3 false 0 0 "kmeans" 1
    (by omega)
    (by
      intro j hj
      have hj0 : j = 0 := by omega
      subst hj0
      simp [cvg, prevLL])
    (by norm_num [cvg, prevLL])
  simpa using h

/-- C4 (amended): when all `max_iter ≥ 1` iterations complete without the
tolerance criterion being met, the model keeps the parameters of the last
completed M-step (`m^[max_iter] p0`), becomes fitted with the last
iteration's log-likelihood, and no exception is raised; the "did not
converge" message, however, is printed only when `verbose` is set — it is
not raised unconditionally. -/
theorem c4_exhaustion_keeps_params_warns_iff_verbose {P : Type}
    (e : P → ℚ) (m : P → P) (tol : ℚ) (fuel : Nat) (verbose : Bool)
    (kmeansParams p0 : P) (init_method : String)
    (hprev : ∀ j, j < fuel + 1 →
      cvg (prevLL e m p0 none j) (e (m^[j] p0)) tol = false) :
    GMM.fit e m tol (fuel + 1) verbose kmeansParams (some p0) init_method
      = { paramsAttr := some (some (m^[fuel + 1] p0)),
          trainNll := some (e (m^[fuel] p0)), isFitted := true,
          warned := verbose, converged := false, error := none } := by
  have hloop := emLoop_exhausts e m tol (fuel + 1) p0 none none hprev
  simp only [GMM.fit, GMM.chooseParams, hloop, prevLL, Bool.not_false,
    Bool.true_and]

theorem c4_exhaustion_keeps_params_warns_iff_verbose_witness :
    GMM.fit (fun x : ℚ => x) (fun x => x + 10) 2 1 true 0 (some 0) "kmeans"
      = { paramsAttr := some (some 10), trainNll := some 0, isFitted := true,
          warned := true, converged := false, error := none } := by
  have h := c4_exhaustion_keeps_params_warns_iff_verbose
    (fun x : ℚ => x) (fun x => x + 10) 2 0 true 0 0 "kmeans"
    (by
      intro j hj
      have hj0 : j = 0 := by omega
      subst hj0
      simp [cvg, prevLL])
  simpa using h

/-- C4 counterexample: a `fit` run that exhausts its iteration budget
without converging (`converged = false`) but prints no "did not converge"
message because `verbose = False` (`warned = false`): the warning *is*
dependent on a configuration flag, contrary to the claim. -/
theorem c4_exhaustion_counterexample :
    (GMM.fit (fun x : ℚ => x) (fun x => x + 10) 2 1 false 0 (some 0)
      "kmeans").converged = false ∧
    (GMM.fit (fun x : ℚ => x) (fun x => x + 10) 2 1 false 0 (some 0)
      "kmeans").isFitted = true ∧
    (GMM.fit (fun x : ℚ => x) (fun x => x + 10) 2 1 false 0 (some 0)
      "kmeans").warned = false := by
  refine ⟨?_, ?_, ?_⟩ <;> decide

/-- C9: with `max_iter = 0`, the `for` loop body never runs, so no EM
iteration is executed (`paramsAttr` is the chosen starting parameter set,
untouched); the `for`-`else` clause runs (printing the warning exactly
when `verbose` is set), `self.params` is assigned, and then
`self.trainNll = ll` raises `UnboundLocalError` because `ll` was never
bound — so `self.isFitted` is never set and the model is not fitted. -/
theorem c9_max_iter_zero_unbound_local {P : Type} (e : P → ℚ) (m : P → P)
    (tol : ℚ) (verbose : Bool) (kmeansParams : P) (params_init : Option P)
    (init_method : String) :
    GMM.fit e m tol 0 verbose kmeansParams params_init init_method
      = { paramsAttr :=
            some (GMM.chooseParams params_init init_method kmeansParams),
          trainNll := none, isFitted := false, warned := verbose,
          converged := false, error := some PyErr.unboundLocalError } := by
  unfold GMM.fit
  simp [emLoop]

/-- C10: with `params_init` absent and an `init_method` other than
`'kmeans'`, `_init_params` returns `None`; `fit` does not validate this
and enters the loop, where the first E-step raises a `TypeError`
subscripting the absent parameters — no "unsupported method" diagnosis is
made at the interface, and no model attribute is assigned. -/
theorem c10_unknown_init_method_fails_in_estep {P : Type} (e : P → ℚ)
    (m : P → P) (tol : ℚ) (fuel : Nat) (verbose : Bool) (kmeansParams : P)
    (init_method : String) (hm : init_method ≠ "kmeans") :
    GMM.initParams init_method kmeansParams = (none : Option P) ∧
    GMM.fit e m tol (fuel + 1) verbose kmeansParams none init_method
      = { paramsAttr := none, trainNll := none, isFitted := false,
          warned := false, converged := false,
          error := some PyErr.typeErrorNoneSubscript } := by
  refine ⟨by simp [GMM.initParams, hm], ?_⟩
  unfold GMM.fit GMM.chooseParams GMM.initParams
  simp [hm, emLoop, estepOrRaise]

theorem c10_unknown_init_method_fails_in_estep_witness :
    GMM.initParams "random" (0 : ℚ) = none ∧
    GMM.fit (fun x : ℚ => x) (fun x => x) 1 1 true 0 none "random"
      = { paramsAttr := none, trainNll := none, isFitted := false,
          warned := false, converged := false,
          error := some PyErr.typeErrorNoneSubscript } :=
  c10_unknown_init_method_fails_in_estep (fun x : ℚ => x) (fun x => x) 1 0
    true 0 "random" (by decide)

/-- C1 counterexample: on an unfitted model, `sample`, `score_samples` and
`score` all return normally with the value `None` (`Except.ok none`) after
printing a message — none of them produces an error result or raises an
exception, contrary to the claim that not-fitted usage is signalled as a
precondition failure. -/
theorem c1_unfitted_counterexample :
    GMM.sample (⟨false, (0 : ℚ)⟩ : ModelState ℚ) (fun _ _ => ([] : List ℚ)) 5
      = Except.ok none ∧
    GMM.scoreSamples (⟨false, (0 : ℚ)⟩ : ModelState ℚ) (fun p _ => [p]) (1 : ℚ)
      = Except.ok none ∧
    GMM.score (⟨false, (0 : ℚ)⟩ : ModelState ℚ) (fun p _ => [p]) (1 : ℚ)
      = Except.ok none :=
  ⟨rfl, rfl, rfl⟩

/-- C1 (amended): calling `sample`, `score_samples` or `score` on a model
whose fit has not completed prints a not-fitted message and returns the
value `None` — a silent normal return, not an exception or error result. -/
theorem c1_unfitted_returns_none {P X S : Type} (mdl : ModelState P)
    (ellOf : P → X → List ℚ) (draw : P → Nat → S) (x : X) (n_samples : Nat)
    (h : mdl.isFitted = false) :
    GMM.sample mdl draw n_samples = Except.ok none ∧
    GMM.scoreSamples mdl ellOf x = Except.ok none ∧
    GMM.score mdl ellOf x = Except.ok none := by
  refine ⟨?_, ?_, ?_⟩ <;> simp [GMM.sample, GMM.scoreSamples, GMM.score, h]

theorem c1_unfitted_returns_none_witness :
    GMM.sample (⟨false, (0 : ℚ)⟩ : ModelState ℚ) (fun _ n => n) 3
      = Except.ok none ∧
    GMM.scoreSamples (⟨false, (0 : ℚ)⟩ : ModelState ℚ) (fun p _ => [p]) (2 : ℚ)
      = Except.ok none ∧
    GMM.score (⟨false, (0 : ℚ)⟩ : ModelState ℚ) (fun p _ => [p]) (2 : ℚ)
      = Except.ok none :=
  c1_unfitted_returns_none (⟨false, (0 : ℚ)⟩ : ModelState ℚ)
    (fun p _ => [p]) (fun _ n => n) (2 : ℚ) 3 rfl

/-- C2: `MPPCA.__init__` and `MFA.__init__`, called with
`tol = 1/2, max_iter = 7, random_state = 3, verbose = False`, store the
hard-coded values `tol = 1/1000, max_iter = 1000, random_state = 0,
verbose = True` instead of the supplied ones: the `super().__init__` call
forwards literal defaults, discarding every one of these four arguments. -/
theorem c2_mppca_mfa_constructors_discard_arguments :
    ((MPPCA.init 2 1 (1/2) 7 3 false).base.tol = 1/1000 ∧
     (MPPCA.init 2 1 (1/2) 7 3 false).base.max_iter = 1000 ∧
     (MPPCA.init 2 1 (1/2) 7 3 false).base.random_state = 0 ∧
     (MPPCA.init 2 1 (1/2) 7 3 false).base.verbose = true) ∧
    ((MFA.init 2 1 (1/2) 7 3 false).base.tol = 1/1000 ∧
     (MFA.init 2 1 (1/2) 7 3 false).base.max_iter = 1000 ∧
     (MFA.init 2 1 (1/2) 7 3 false).base.random_state = 0 ∧
     (MFA.init 2 1 (1/2) 7 3 false).base.verbose = true) ∧
    ((MPPCA.init 2 1 (1/2) 7 3 false).base.tol ≠ 1/2 ∧
     (MPPCA.init 2 1 (1/2) 7 3 false).base.max_iter ≠ 7 ∧
     (MPPCA.init 2 1 (1/2) 7 3 false).base.random_state ≠ 3 ∧
     (MPPCA.init 2 1 (1/2) 7 3 false).base.verbose ≠ false ∧
     (MFA.init 2 1 (1/2) 7 3 false).base.tol ≠ 1/2) := by
  refine ⟨⟨rfl, rfl, rfl, rfl⟩, ⟨rfl, rfl, rfl, rfl⟩, ?_⟩
  refine ⟨?_, ?_, ?_, ?_, ?_⟩ <;> simp [MPPCA.init, MFA.init, GMM.init]

/-- C8: on a fitted model, `score(X)` is exactly the arithmetic mean of
the per-row log-likelihood list returned by `score_samples(X)` — an exact
identity following from `score` calling `score_samples` and returning its
`.mean()`. -/
theorem c8_score_is_mean_of_score_samples {P X : Type} (mdl : ModelState P)
    (ellOf : P → X → List ℚ) (x : X) (sample_ll : List ℚ)
    (hfit : mdl.isFitted = true)
    (hs : GMM.scoreSamples mdl ellOf x = Except.ok (some sample_ll)) :
    GMM.score mdl ellOf x = Except.ok (some (listMean sample_ll)) := by
  simp [GMM.score, hfit, hs]

theorem c8_score_is_mean_of_score_samples_witness :
    GMM.score (⟨true, (0 : ℚ)⟩ : ModelState ℚ) (fun _ _ => [1, 3]) (0 : ℚ)
      = Except.ok (some 2) := by
  have h := c8_score_is_mean_of_score_samples
    (⟨true, (0 : ℚ)⟩ : ModelState ℚ) (fun _ _ => [1, 3]) (0 : ℚ) [1, 3]
    rfl rfl
  rw [h]
  norm_num [listMean]

/-- C5: the M-step recomputes each component weight as the mean of that
component's responsibility column, and because the E-step normalises each
example's responsibilities to sum to 1 (whenever the mixture density
`r_sum` is nonzero, as division requires), the `K` new weights sum to
exactly 1. -/
theorem c5_mstep_weights_mean_resp_sum_to_one {n d K : Nat}
    (X : Fin n → Fin d → ℚ) (pdf : Fin n → Fin K → ℚ) (w : Fin K → ℚ)
    (hn : 0 < n) (hden : ∀ i, (∑ j, pdf i j * w j) ≠ 0) :
    (∀ k, (GMM.mStep X (GMM.responsibilities pdf w)).components k
        = (∑ i, GMM.responsibilities pdf w i k) / (n : ℚ)) ∧
    (∑ k, (GMM.mStep X (GMM.responsibilities pdf w)).components k) = 1 := by
  have hrow : ∀ i, (∑ k, GMM.responsibilities pdf w i k) = 1 := by
    intro i
    unfold GMM.responsibilities
    rw [← Finset.sum_div]
    exact div_self (hden i)
  refine ⟨fun k => rfl, ?_⟩
  calc ∑ k, (GMM.mStep X (GMM.responsibilities pdf w)).components k
      = ∑ k, (∑ i, GMM.responsibilities pdf w i k) / (n : ℚ) := rfl
    _ = (∑ k, ∑ i, GMM.responsibilities pdf w i k) / (n : ℚ) := by
        rw [Finset.sum_div]
    _ = (∑ i, ∑ k, GMM.responsibilities pdf w i k) / (n : ℚ) := by
        rw [Finset.sum_comm]
    _ = (∑ _i : Fin n, (1 : ℚ)) / (n : ℚ) := by
        rw [Finset.sum_congr rfl (fun i _ => hrow i)]
    _ = 1 := by
        rw [Finset.sum_const, Finset.card_univ, Fintype.card_fin,
          nsmul_eq_mul, mul_one]
        exact div_self (Nat.cast_ne_zero.mpr hn.ne')

theorem c5_mstep_weights_mean_resp_sum_to_one_witness :
    (∀ k : Fin 1, (GMM.mStep (fun (_ : Fin 1) (_ : Fin 1) => (0 : ℚ))
        (GMM.responsibilities (n := 1) (K := 1) (fun _ _ => 1)
          (fun _ => 1))).components k
      = (∑ i, GMM.responsibilities (n := 1) (K := 1) (fun _ _ => 1)
          (fun _ => 1) i k) / ((1 : Nat) : ℚ)) ∧
    (∑ k, (GMM.mStep (fun (_ : Fin 1) (_ : Fin 1) => (0 : ℚ))
        (GMM.responsibilities (n := 1) (K := 1) (fun _ _ => 1)
          (fun _ => 1))).components k)
      = 1 :=
  c5_mstep_weights_mean_resp_sum_to_one (fun _ _ => 0) (fun _ _ => 1)
    (fun _ => 1) Nat.one_pos (by intro i; norm_num)

/-- C6: the Full-covariance M-step returns, for component `k`, the mean
`(Σ_n r_k[n]·x_n)/R_k` and the covariance
`(Σ_n r_k[n]·x_n·x_nᵗ)/R_k − mean_k·mean_kᵗ`, exactly as the spec's
closed-form formulas state them. -/
theorem c6_full_mstep_matches_spec_formulas {n d K : Nat}
    (X : Fin n → Fin d → ℚ) (resp : Fin n → Fin K → ℚ) (k : Fin K) :
    (GMM.mStep X resp).mu_list k = specPlainMean X (fun i => resp i k) ∧
    (GMM.mStep X resp).Sigma_list k = specFullCov X (fun i => resp i k) := by
  have h2 : ∀ j, (∑ i, X i j * resp i k) = ∑ i, resp i k * X i j :=
    fun j => Finset.sum_congr rfl (fun i _ => mul_comm _ _)
  have h1 : (∀ a b, (∑ i, X i a * resp i k * X i b)
      = ∑ i, resp i k * (X i a * X i b)) :=
    fun a b => Finset.sum_congr rfl (fun i _ => by ring)
  constructor
  · funext j
    simp only [GMM.mStep, specPlainMean, h2]
  · funext a b
    simp only [GMM.mStep, specFullCov, specPlainMean, h1, h2]

/-- C7: the MPPCA and MFA M-steps compute the component mean as the
responsibility-weighted average of the residuals `x_n − W·z_n` (with `W`
the previous loading matrix and `z_n` the E-step conditional latent
means), and this differs from the plain weighted data average used by the
Full/Spherical/Diagonal variants (witnessed at a concrete input). -/
theorem c7_lowrank_mean_is_residual_weighted_average :
    (∀ (n d L : Nat) (X : Fin n → Fin d → ℚ) (r : Fin n → ℚ)
        (W : Fin d → Fin L → ℚ) (z : Fin n → Fin L → ℚ),
      MPPCA.mStepMu X r W z = specResidualMean X r W z ∧
      MFA.mStepMu X r W z = specResidualMean X r W z) ∧
    MPPCA.mStepMu (fun (_ : Fin 1) (_ : Fin 1) => (1 : ℚ)) (fun _ => 1)
        (fun (_ : Fin 1) (_ : Fin 1) => 1) (fun _ _ => 1)
      ≠ specPlainMean (fun (_ : Fin 1) (_ : Fin 1) => (1 : ℚ)) (fun _ => 1) := by
  constructor
  · intro n d L X r W z
    have h : ∀ j, (∑ i, (X i j - ∑ l, z i l * W j l) * r i)
        = ∑ i, r i * (X i j - ∑ l, W j l * z i l) := by
      intro j
      refine Finset.sum_congr rfl (fun i _ => ?_)
      have hz : (∑ l, z i l * W j l) = ∑ l, W j l * z i l :=
        Finset.sum_congr rfl (fun l _ => mul_comm _ _)
      rw [hz, mul_comm]
    constructor
    · funext j
      simp only [MPPCA.mStepMu, specResidualMean, h]
    · funext j
      simp only [MFA.mStepMu, specResidualMean, h]
  · intro hcontra
    have h0 := congrFun hcontra 0
    simp [MPPCA.mStepMu, specPlainMean] at h0

end PyMix
